import Mathlib

/-!
Shallow embedding of the Session Lease Manager of
`src/AccountFramework/app/api.py` (the `db` peewee models are reconstructed
from their uses in `api.py`; timestamps are integers counting seconds, and a
`timedelta(hours=h)` is `h * 3600` seconds).

Mutating Python code is modelled by explicit state passing over `Store`;
Python exceptions are modelled by `Except String`; the partially mutated
store at the moment an exception is raised is returned alongside the error,
because the peewee `save()` calls are not wrapped in any transaction in
`api.py`.
-/

namespace AccountAPI

/-- Row of the `Website` table (`db.Website`): `site` plus the primary key. -/
structure Website where
  id : Nat
  site : String
deriving DecidableEq, Repr

/-- Row of the `SessionStatus` table: a status name and its `active` flag. -/
structure SessionStatus where
  name : String
  active : Bool
deriving DecidableEq, Repr

/-- Row of the `Account` table: primary key, its website, and the nullable
foreign key `Account.session` used by the batch queries in
`handle_get_sessions`. -/
structure Account where
  id : Nat
  website : Website
  session : Option Nat
deriving DecidableEq, Repr

/-- Row of the `Session` table, with exactly the fields `api.py` reads or
writes: `locked`, `verified`, `verify_type`, `verified_browsers`,
`session_status` (denormalised to the joined `SessionStatus` row),
`unlock_time`, `update_time`, `experiment` and the back reference
`session.account`. -/
structure Session where
  id : Nat
  name : String
  locked : Bool
  verified : Bool
  verify_type : String
  verified_browsers : String
  session_status : SessionStatus
  unlock_time : Option Int
  update_time : Int
  experiment : Option String
  account : Option Account
deriving DecidableEq, Repr

/-- Row of the `ValidateTask` outbox table created by `unlock_session`. -/
structure ValidateTask where
  session : Nat
  task_type : String
deriving DecidableEq, Repr

/-- Row of the `ExperimentWebsite` dedup table. -/
structure ExperimentWebsite where
  website : Website
  experiment : String
  session : Nat
deriving DecidableEq, Repr

/-- Row of the external `aa_LoginForm` catalog (`site` and `success` are the
only columns `api.py` filters on). -/
structure LoginForm where
  site : String
  success : Bool
deriving DecidableEq, Repr

/-- The database state touched by `api.py`. `expiredStatus` is the
`SessionStatus` row fetched by `db.SessionStatus.get(name == "expired")`
inside `unlock_session`. -/
structure Store where
  sessions : List Session
  accounts : List Account
  validateTasks : List ValidateTask
  experimentWebsites : List ExperimentWebsite
  expiredStatus : SessionStatus
deriving DecidableEq, Repr

/-- Ambient process configuration and external collaborators: the clock,
the three timeout environment variables (in hours), the session-data blob
files under `SESSION_FILE_PATH` and the login-form catalog. -/
structure Env where
  now : Int
  auto_limit : Int
  manual_limit : Int
  lease_ttl : Int
  blobs : String → Option String
  loginforms : List LoginForm

/-- A `datetime.timedelta(hours = h)` in seconds. -/
def hoursDelta (h : Int) : Int := h * 3600

/-- The reply a handler sends on the zmq socket: `send_success(dict())` for
unlock, the single-session payload, the batch payload, or `send_error`. -/
structure SessionPayload where
  session : Session
  session_data : String
  loginform : Option LoginForm
deriving DecidableEq, Repr

inductive Reply where
  | okEmpty : Reply
  | okSession : SessionPayload → Reply
  | okSessions : String → List SessionPayload → Reply
  | error : String → Reply
deriving DecidableEq, Repr

/-- Decidable equality of handler results, used to evaluate the concrete
scenarios. -/
instance instDecEqExcept {e a : Type} [DecidableEq e] [DecidableEq a] :
    DecidableEq (Except e a) := fun x y =>
  match x, y with
  | .ok v, .ok w =>
    if h : v = w then .isTrue (by rw [h]) else .isFalse (by intro hc; injection hc; contradiction)
  | .error v, .error w =>
    if h : v = w then .isTrue (by rw [h]) else .isFalse (by intro hc; injection hc; contradiction)
  | .ok _, .error _ => .isFalse (by intro hc; injection hc)
  | .error _, .ok _ => .isFalse (by intro hc; injection hc)

/-- Eligibility filter of the allocation queries:
`SessionStatus.active == True, Session.locked == False,
Session.verified == True`. -/
def sessionEligible (s : Session) : Bool :=
  s.session_status.active && !s.locked && s.verified

/-- The single-allocation query of `handle_get_session` (lines 147-155). -/
def eligibleSessions (st : Store) : List Session :=
  st.sessions.filter sessionEligible

/-- Field updates of `unlock_session` (api.py lines 88-94). -/
def unlockFields (env : Env) (st : Store) (s : Session) : Session :=
  { s with
    locked := false
    verified := false
    verify_type := "no"
    verified_browsers := ""
    session_status := st.expiredStatus
    unlock_time := some env.now
    experiment := none }

/-- A peewee `save()`: `UPDATE` of the row with the object's primary key,
writing every field of the object. -/
def saveSession (st : Store) (s : Session) : Store :=
  { st with sessions := st.sessions.map fun t => if t.id = s.id then s else t }

/-- `unlock_session` (api.py lines 86-96): reset the fields, `save()`, then
`db.ValidateTask.create(session=session, task_type="auto")`. -/
def unlock_session (env : Env) (st : Store) (s : Session) : Store :=
  let u := unlockFields env st s
  let st := saveSession st u
  { st with validateTasks := st.validateTasks ++ [⟨u.id, "auto"⟩] }

/-- The TTL-reclaim query condition of `unlock_old_sessions`
(`Session.locked == True, Session.unlock_time <= current_time`; a SQL
comparison against NULL does not match). -/
def ttlExpired (env : Env) (s : Session) : Bool :=
  s.locked &&
    match s.unlock_time with
    | some t => decide (t ≤ env.now)
    | none => false

/-- `unlock_old_sessions` (api.py lines 99-110): select the overdue locked
sessions, then unlock each. -/
def unlock_old_sessions (env : Env) (st : Store) : Store :=
  (st.sessions.filter (ttlExpired env)).foldl (fun acc s => unlock_session env acc s) st

/-- `expire_old_sessions` (api.py lines 113-138): walk the candidate list in
order; an invalid `verify_type` raises (aborting the walk, keeping the
mutations already made); a stale candidate is unlocked; a fresh one is kept
in `usable_sessions`. -/
def expire_old_sessions (env : Env) : Store → List Session → Store × Except String (List Session)
  | st, [] => (st, .ok [])
  | st, s :: rest =>
    if s.verify_type = "auto" then
      if env.now - s.update_time > hoursDelta env.auto_limit then
        expire_old_sessions env (unlock_session env st s) rest
      else
        match expire_old_sessions env st rest with
        | (st, .ok usable) => (st, .ok (s :: usable))
        | (st, .error e) => (st, .error e)
    else if s.verify_type = "manual" then
      if env.now - s.update_time > hoursDelta env.manual_limit then
        expire_old_sessions env (unlock_session env st s) rest
      else
        match expire_old_sessions env st rest with
        | (st, .ok usable) => (st, .ok (s :: usable))
        | (st, .error e) => (st, .error e)
    else
      (st, .error ("verify_type=" ++ s.verify_type ++ " is invalid in expiration of old sessions"))

/-- Field updates of the lock transition (api.py lines 195-199 and 353-357). -/
def lockFields (env : Env) (experiment : String) (s : Session) : Session :=
  { s with
    locked := true
    unlock_time := some (env.now + hoursDelta env.lease_ttl)
    experiment := some experiment }

/-- `db.ExperimentWebsite.create(website=..., experiment=..., session=...)`. -/
def createEW (st : Store) (w : Website) (experiment : String) (sid : Nat) : Store :=
  { st with experimentWebsites := st.experimentWebsites ++ [⟨w, experiment, sid⟩] }

/-- The websites already given to an experiment (api.py lines 178-183). -/
def websites_used (st : Store) (experiment : String) : List Website :=
  (st.experimentWebsites.filter fun w => w.experiment = experiment).map (·.website)

/-- The login-form lookup (api.py lines 210-215): prefer a successful form
for the site, else any form for the site. -/
def getLoginform (env : Env) (site : String) : Option LoginForm :=
  match env.loginforms.find? (fun f => f.site = site && f.success) with
  | some f => some f
  | none => env.loginforms.find? fun f => f.site = site

/-- Reading `open(f"{SESSION_FILE_PATH}{session.name}.json").read()`:
a missing blob raises `FileNotFoundError`. -/
def readSessionData (env : Env) (name : String) : Except String String :=
  match env.blobs name with
  | some d => .ok d
  | none => .error ("FileNotFoundError: " ++ name)

/-- The site-pinned scan of `handle_get_session` (api.py lines 168-173):
first session of the requested site, if any; `session.account.website`
raises `AttributeError` when `account` is NULL. -/
def pickSiteSession (site : String) : List Session → Except String (List Session)
  | [] => .ok []
  | s :: rest =>
    match s.account with
    | none => .error "AttributeError: NoneType object has no attribute website"
    | some a => if a.website.site = site then .ok [s] else pickSiteSession site rest

/-- The non-pinned filter of `handle_get_session` (api.py lines 185-189):
keep the sessions whose website was not already given out;
`session.account.website` raises when `account` is NULL. -/
def filterUnusedSessions (used : List Website) : List Session → Except String (List Session)
  | [] => .ok []
  | s :: rest =>
    match s.account with
    | none => .error "AttributeError: NoneType object has no attribute website"
    | some a =>
      if used.any (fun w => w = a.website) then
        filterUnusedSessions used rest
      else
        match filterUnusedSessions used rest with
        | .ok r => .ok (s :: r)
        | .error e => .error e

/-- The per-session allocation steps shared verbatim by
`handle_get_session` (api.py lines 193-236) and the loop body of
`handle_get_sessions` (lines 351-396): lock fields, `save()`, conditional
`ExperimentWebsite` record (guarded by `session.account and site is None`),
login-form lookup, blob read. -/
def lockOneSession (env : Env) (experiment : String) (site : Option String)
    (st : Store) (s0 : Session) : Store × Except String SessionPayload :=
  let s := lockFields env experiment s0
  let st := saveSession st s
  let st :=
    match s.account, site with
    | some a, none => createEW st a.website experiment s.id
    | _, _ => st
  match s.account with
  | none => (st, .error "AttributeError: NoneType object has no attribute website")
  | some a =>
    let lf := getLoginform env a.website.site
    match readSessionData env s.name with
    | .error e => (st, .error e)
    | .ok data => (st, .ok ⟨s, data, lf⟩)

/-- Lock the chosen session and build the single-session reply
(api.py lines 192-236). -/
def allocateSession (env : Env) (st : Store) (experiment : String) (site : Option String)
    (s : Session) : Store × Except String Reply :=
  match lockOneSession env experiment site st s with
  | (st, .error e) => (st, .error e)
  | (st, .ok p) => (st, .ok (.okSession p))

/-- `handle_get_session` (api.py lines 141-241). `site = none` is a
`get_session` request; `some s` a `get_specific_session` one (Python's
`if site:` treats the empty string like `None`, and the `ExperimentWebsite`
guard tests `site is None` instead). -/
def handle_get_session (env : Env) (st : Store) (experiment : String) (site : Option String) :
    Store × Except String Reply :=
  match expire_old_sessions env st (eligibleSessions st) with
  | (st, .error e) => (st, .error e)
  | (st, .ok sessions) =>
    let st := unlock_old_sessions env st
    let filtered : Except String (List Session) :=
      match site with
      | some s =>
        if s = "" then filterUnusedSessions (websites_used st experiment) sessions
        else pickSiteSession s sessions
      | none => filterUnusedSessions (websites_used st experiment) sessions
    match filtered with
    | .error e => (st, .error e)
    | .ok [] => (st, .ok (.error "no sessions available"))
    | .ok (s :: _) => allocateSession env st experiment site s

/-- `handle_unlock_session` (api.py lines 69-83): `get_or_none` on id and
experiment, unlock on hit, error reply on miss (the `type(experiment)`
check is statically satisfied here since `experiment` is typed). -/
def handle_unlock_session (env : Env) (st : Store) (experiment : String) (session_id : Nat) :
    Store × Except String Reply :=
  match st.sessions.find? (fun s => s.id = session_id && s.experiment = some experiment) with
  | some s => (unlock_session env st s, .ok .okEmpty)
  | none => (st, .ok (.error "Session does not exist or does not belong to the experiment!"))

/-- Deduplicate a list of ids, keeping first occurrences (`seen` holds the
ids already emitted). -/
def dedupNats (seen : List Nat) : List Nat → List Nat
  | [] => []
  | n :: rest =>
    if seen.contains n then dedupNats seen rest
    else n :: dedupNats (n :: seen) rest

/-- `Count(db.Account.id.distinct())`. -/
def distinctCount (l : List Nat) : Nat := (dedupNats [] l).length

/-- Distinct websites of a list of accounts, first occurrences first. -/
def dedupWebsites (seen : List Nat) : List Account → List Website
  | [] => []
  | a :: rest =>
    if seen.contains a.website.id then dedupWebsites seen rest
    else a.website :: dedupWebsites (a.website.id :: seen) rest

/-- The inner join `Account -> Session -> SessionStatus` restricted by the
eligibility filter: the account row survives when its `session` foreign key
matches an eligible session. -/
def accountJoinsEligible (st : Store) (a : Account) : Bool :=
  st.sessions.any fun s => a.session = some s.id && sessionEligible s

/-- The `available_websites` aggregate of `handle_get_sessions`
(api.py lines 252-266): websites having at least `k` distinct accounts with
eligible sessions. -/
def available_websites (st : Store) (k : Nat) : List Website :=
  let eligAccts := st.accounts.filter (accountJoinsEligible st)
  (dedupWebsites [] eligAccts).filter fun w =>
    decide (k ≤ distinctCount ((eligAccts.filter fun a => a.website = w).map (·.id)))

/-- Stable insertion of an account into a list sorted by website id. -/
def insertByWebsiteId (a : Account) : List Account → List Account
  | [] => [a]
  | b :: rest =>
    if b.website.id ≤ a.website.id then b :: insertByWebsiteId a rest
    else a :: b :: rest

/-- Stable sort by website id, realising `order_by(website_id)` (SQL leaves
the order of rows with equal keys open; this determinisation keeps the
underlying table order). -/
def sortByWebsiteId (l : List Account) : List Account :=
  l.foldl (fun acc a => insertByWebsiteId a acc) []

/-- The row query of `handle_get_sessions` (api.py lines 276-294): accounts
with an eligible session whose website is available, ordered by website id;
each row carries the joined website and session. -/
def batchRows (st : Store) (k : Nat) : List (Website × Session) :=
  let avail := available_websites st k
  let accts := st.accounts.filter fun a =>
    accountJoinsEligible st a && avail.any fun w => w = a.website
  (sortByWebsiteId accts).foldr
    (fun a acc =>
      ((st.sessions.filter fun s => a.session = some s.id && sessionEligible s).map
        fun s => (a.website, s)) ++ acc)
    []

/-- Python-dict membership for the `sessions_per_site` association list. -/
def dictMem (d : List (String × List Session)) (key : String) : Bool :=
  d.any fun p => p.1 = key

/-- Python-dict lookup. -/
def dictGet (d : List (String × List Session)) (key : String) : Option (List Session) :=
  (d.find? fun p => p.1 = key).map (·.2)

/-- Python-dict assignment: update in place when the key exists, else append
at the end of the insertion order. -/
def dictSet (d : List (String × List Session)) (key : String) (v : List Session) :
    List (String × List Session) :=
  if dictMem d key then d.map fun p => if p.1 = key then (key, v) else p
  else d ++ [(key, v)]

/-- Python `del d[key]`. -/
def dictDelete (d : List (String × List Session)) (key : String) :
    List (String × List Session) :=
  d.filter fun p => decide (p.1 ≠ key)

/-- `defaultdict(list)` append `d[key].append(s)`. -/
def dictAppendSession (d : List (String × List Session)) (key : String) (s : Session) :
    List (String × List Session) :=
  match dictGet d key with
  | some l => dictSet d key (l ++ [s])
  | none => d ++ [(key, [s])]

/-- The `sessions_per_site` dict built from the query rows
(api.py lines 296-301). -/
def buildPerSite (rows : List (Website × Session)) : List (String × List Session) :=
  rows.foldl (fun d r => dictAppendSession d r.1.site r.2) []

/-- Deduplicate sessions by primary key (peewee model equality), keeping
first occurrences. -/
def dedupSessionsById (seen : List Nat) : List Session → List Session
  | [] => []
  | s :: rest =>
    if seen.contains s.id then dedupSessionsById seen rest
    else s :: dedupSessionsById (s.id :: seen) rest

/-- `list(set(site_sessions) & set(sessions))` (api.py line 312): sessions of
the site still usable, deduplicated by primary key (determinised to the
first-occurrence order of `site_sessions`; CPython leaves set order open). -/
def setInterById (ss usable : List Session) : List Session :=
  dedupSessionsById [] (ss.filter fun s => usable.any fun t => t.id = s.id)

/-- One iteration of the removal loop (api.py lines 311-318). The `del` for
a site that fell under the quorum is immediately undone by the unconditional
reassignment `sessions_per_site[site] = _remaining_sessions[:k]` that
follows it. -/
def removeAgainStep (k : Nat) (usable : List Session) (d : List (String × List Session))
    (p : String × List Session) : List (String × List Session) :=
  let rem := setInterById p.2 usable
  let d := if rem.length < k then dictDelete d p.1 else d
  dictSet d p.1 (rem.take k)

/-- The removal loop over the snapshot `list(sessions_per_site.items())`
while mutating the dict. -/
def removeAgainLoop (k : Nat) (usable : List Session)
    (snapshot d : List (String × List Session)) : List (String × List Session) :=
  snapshot.foldl (removeAgainStep k usable) d

/-- Site names already given to an experiment (api.py lines 333-338). -/
def sites_used (st : Store) (experiment : String) : List String :=
  (st.experimentWebsites.filter fun w => w.experiment = experiment).map (·.website.site)

/-- The lock-and-reply loop of `handle_get_sessions` (api.py lines 351-396).
The `site` argument it receives is the rebound loop variable, which at that
point holds the chosen site string, so the `site is None` guard in front of
`ExperimentWebsite.create` never fires there. -/
def lockBatchLoop (env : Env) (experiment : String) (site : Option String) :
    Store → List Session → Store × Except String (List SessionPayload)
  | st, [] => (st, .ok [])
  | st, s :: rest =>
    match lockOneSession env experiment site st s with
    | (st, .error e) => (st, .error e)
    | (st, .ok p) =>
      match lockBatchLoop env experiment site st rest with
      | (st, .ok ps) => (st, .ok (p :: ps))
      | (st, .error e) => (st, .error e)

/-- `handle_get_sessions` (api.py lines 244-403). Two Python scoping facts
are part of the semantics: the loop at line 311 iterates with the target
variable `site`, so after the loop `site` holds the last key of the snapshot
(the request parameter only survives when the snapshot is empty), and line
347 rebinds `site` again to the chosen key (a string, never `None`). -/
def handle_get_sessions (env : Env) (st : Store) (experiment : String) (site : Option String)
    (k : Nat) : Store × Except String Reply :=
  let rows := batchRows st k
  let d0 := buildPerSite rows
  match expire_old_sessions env st (rows.map (·.2)) with
  | (st, .error e) => (st, .error e)
  | (st, .ok usable) =>
    let st := unlock_old_sessions env st
    let d1 := removeAgainLoop k usable d0 d0
    let site :=
      match d0.getLast? with
      | some p => some p.1
      | none => site
    let d2 :=
      match site with
      | some s =>
        if s = "" then d1.filter fun p => !((sites_used st experiment).any fun t => t = p.1)
        else
          match dictGet d1 s with
          | some v => [(s, v)]
          | none => []
      | none => d1.filter fun p => !((sites_used st experiment).any fun t => t = p.1)
    match d2 with
    | [] => (st, .ok (.error "no sessions available"))
    | (chosenSite, chosenSessions) :: _ =>
      match lockBatchLoop env experiment (some chosenSite) st chosenSessions with
      | (st, .error e) => (st, .error e)
      | (st, .ok ps) => (st, .ok (.okSessions chosenSite ps))

/-- A decoded JSON request: the `type` discriminator plus the fields the
dispatcher may read (a missing field raises `KeyError`). -/
structure Request where
  type : String
  experiment : Option String := none
  site : Option String := none
  session_id : Option Nat := none
  k : Option Nat := none
deriving DecidableEq, Repr

/-- The dispatch on `request["type"]` (api.py lines 429-440), including the
`KeyError` raised by a missing required field and the error reply naming an
illegal type. -/
def dispatch (env : Env) (st : Store) (req : Request) : Store × Except String Reply :=
  if req.type = "get_session" then
    match req.experiment with
    | some e => handle_get_session env st e none
    | none => (st, .error "KeyError: experiment")
  else if req.type = "get_specific_session" then
    match req.experiment with
    | some e =>
      match req.site with
      | some s => handle_get_session env st e (some s)
      | none => (st, .error "KeyError: site")
    | none => (st, .error "KeyError: experiment")
  else if req.type = "get_sessions" then
    match req.experiment with
    | some e => handle_get_sessions env st e none (req.k.getD 2)
    | none => (st, .error "KeyError: experiment")
  else if req.type = "get_specific_sessions" then
    match req.experiment with
    | some e =>
      match req.site with
      | some s => handle_get_sessions env st e (some s) (req.k.getD 2)
      | none => (st, .error "KeyError: site")
    | none => (st, .error "KeyError: experiment")
  else if req.type = "unlock_session" then
    match req.experiment with
    | some e =>
      match req.session_id with
      | some sid => handle_unlock_session env st e sid
      | none => (st, .error "KeyError: session_id")
    | none => (st, .error "KeyError: experiment")
  else (st, .ok (.error ("illegal request type " ++ req.type)))

/-- One turn of the serial loop (api.py lines 420-445): dispatch, and catch
any exception at the protocol boundary, turning it into the generic error
reply. Exactly one reply is produced per decoded request. -/
def processRequest (env : Env) (st : Store) (req : Request) : Store × Reply :=
  match dispatch env st req with
  | (st, .ok r) => (st, r)
  | (st, .error e) => (st, .error ("invalid request " ++ e))

/-- The reconciliation order stated by the spec: TTL reclaim first and
unconditional, then freshness reclaim over the sessions passing the
eligibility filter. Written from the words of the spec, to be compared with
the order `handle_get_session` actually uses. -/
def claimOrderSweep (env : Env) (st : Store) : Store :=
  let st := unlock_old_sessions env st
  (expire_old_sessions env st (eligibleSessions st)).1

/-- The C1 invariant on one session: a locked session names its experiment
and carries an unlock time. -/
def lockedInv (s : Session) : Prop :=
  s.locked = true → s.experiment ≠ none ∧ s.unlock_time ≠ none

/-- The C1 invariant over the whole store. -/
def storeInv (st : Store) : Prop := ∀ s ∈ st.sessions, lockedInv s

/- Concrete fixtures used by witnesses and counterexamples. -/

def stActive : SessionStatus := ⟨"active", true⟩
def stExpired : SessionStatus := ⟨"expired", false⟩
def W1 : Website := ⟨1, "a.com"⟩
def A1 : Account := ⟨1, W1, some 1⟩
def A2 : Account := ⟨2, W1, some 2⟩

/-- Eligible, fresh session of account `A1`. -/
def S1 : Session := ⟨1, "s1", false, true, "auto", "chrome", stActive, none, 999900, none, some A1⟩

/-- Eligible but stale session of account `A2` (13.9 hours old with a
12-hour auto limit). -/
def S2stale : Session := ⟨2, "s2", false, true, "auto", "chrome", stActive, none, 950000, none, some A2⟩

/-- Eligible, fresh session of account `A2`. -/
def S2fresh : Session := ⟨2, "s2", false, true, "auto", "chrome", stActive, none, 999900, none, some A2⟩

/-- Eligible session with an invalid `verify_type`. -/
def Sbad : Session := ⟨3, "s3", false, true, "x", "", stActive, none, 999900, none, some A1⟩

/-- Session locked by `expA` with a future unlock time. -/
def SL : Session := ⟨1, "s1", true, true, "auto", "chrome", stActive, some 1086400, 999900, some "expA", some A1⟩

/-- Locked session whose TTL has already elapsed. -/
def Tlocked : Session := ⟨9, "s9", true, true, "auto", "", stActive, some 999000, 999900, some "expB", some A1⟩

/-- Clock at 1000000, 12-hour freshness limits, 24-hour lease TTL, blobs
present for `s1` and `s2`, empty form catalog. -/
def envC : Env :=
  ⟨1000000, 12, 12, 24,
   fun n => if n = "s1" then some "blob1" else if n = "s2" then some "blob2" else none, []⟩

/-- Same configuration with an empty blob store. -/
def envNoBlob : Env := ⟨1000000, 12, 12, 24, fun _ => none, []⟩

/-- One website, two distinct-account sessions, one of them stale. -/
def stC3 : Store := ⟨[S1, S2stale], [A1, A2], [], [], stExpired⟩

/-- One website, two distinct-account fresh sessions. -/
def stC4 : Store := ⟨[S1, S2fresh], [A1, A2], [], [], stExpired⟩

/-- One stale eligible candidate and one TTL-expired locked session. -/
def stC5 : Store := ⟨[S2stale, Tlocked], [A2], [], [], stExpired⟩

/-- An eligible candidate with an invalid `verify_type` followed by a stale
eligible candidate. -/
def stC6 : Store := ⟨[Sbad, S2stale], [A1, A2], [], [], stExpired⟩

/-- One fresh eligible session whose blob will be missing. -/
def stC7 : Store := ⟨[S1], [A1], [], [], stExpired⟩

/-- One session locked by `expA`. -/
def stC8 : Store := ⟨[SL], [A1], [], [], stExpired⟩

/- Preservation lemmas for the C1 invariant. -/

theorem lockedInv_unlockFields (env : Env) (st : Store) (s : Session) :
    lockedInv (unlockFields env st s) := by
  intro h
  simp [unlockFields] at h

theorem lockedInv_lockFields (env : Env) (e : String) (s : Session) :
    lockedInv (lockFields env e s) := by
  intro h
  simp [lockFields]

theorem storeInv_saveSession (st : Store) (s : Session) (h : storeInv st)
    (hs : lockedInv s) : storeInv (saveSession st s) := by
  intro t ht
  simp only [saveSession] at ht
  rcases List.mem_map.mp ht with ⟨u, hu, hut⟩
  by_cases hid : u.id = s.id
  · simp only [hid, if_pos] at hut
    exact hut ▸ hs
  · simp only [hid, if_neg, not_false_iff] at hut
    exact hut ▸ h u hu

theorem storeInv_unlock_session (env : Env) (st : Store) (s : Session) (h : storeInv st) :
    storeInv (unlock_session env st s) := by
  intro t ht
  have ht2 : t ∈ (saveSession st (unlockFields env st s)).sessions := ht
  exact storeInv_saveSession st _ h (lockedInv_unlockFields env st s) t ht2

theorem storeInv_foldl_unlock (env : Env) :
    ∀ (l : List Session) (st : Store), storeInv st →
      storeInv (l.foldl (fun acc s => unlock_session env acc s) st)
  | [], _, h => h
  | s :: rest, st, h =>
    storeInv_foldl_unlock env rest (unlock_session env st s) (storeInv_unlock_session env st s h)

theorem storeInv_unlock_old (env : Env) (st : Store) (h : storeInv st) :
    storeInv (unlock_old_sessions env st) :=
  storeInv_foldl_unlock env _ st h

theorem storeInv_expire (env : Env) :
    ∀ (l : List Session) (st : Store), storeInv st →
      storeInv (expire_old_sessions env st l).1 := by
  intro l
  induction l with
  | nil =>
    intro st h
    simpa [expire_old_sessions] using h
  | cons s rest ih =>
    intro st h
    simp only [expire_old_sessions]
    split
    · split
      · exact ih _ (storeInv_unlock_session env st s h)
      · rcases hp : expire_old_sessions env st rest with ⟨st2, r⟩
        have h2 := ih st h
        rw [hp] at h2
        cases r <;> exact h2
    · split
      · split
        · exact ih _ (storeInv_unlock_session env st s h)
        · rcases hp : expire_old_sessions env st rest with ⟨st2, r⟩
          have h2 := ih st h
          rw [hp] at h2
          cases r <;> exact h2
      · exact h

theorem storeInv_createEW (st : Store) (w : Website) (e : String) (sid : Nat)
    (h : storeInv st) : storeInv (createEW st w e sid) := h

theorem storeInv_lockOneSession (env : Env) (e : String) (site : Option String)
    (st : Store) (s : Session) (h : storeInv st) :
    storeInv (lockOneSession env e site st s).1 := by
  have hsave : storeInv (saveSession st (lockFields env e s)) :=
    storeInv_saveSession st _ h (lockedInv_lockFields env e s)
  simp only [lockOneSession]
  repeat' split
  all_goals exact hsave

theorem storeInv_allocateSession (env : Env) (st : Store) (e : String) (site : Option String)
    (s : Session) (h : storeInv st) : storeInv (allocateSession env st e site s).1 := by
  simp only [allocateSession]
  rcases hp : lockOneSession env e site st s with ⟨st1, r⟩
  have h1 : storeInv st1 := by
    have := storeInv_lockOneSession env e site st s h
    rw [hp] at this
    exact this
  cases r <;> (dsimp only; exact h1)

theorem storeInv_handle_get_session (env : Env) (st : Store) (e : String)
    (site : Option String) (h : storeInv st) :
    storeInv (handle_get_session env st e site).1 := by
  simp only [handle_get_session]
  rcases hp : expire_old_sessions env st (eligibleSessions st) with ⟨st1, r⟩
  have h1 : storeInv st1 := by
    have := storeInv_expire env (eligibleSessions st) st h
    rw [hp] at this
    exact this
  cases r with
  | error e2 => exact h1
  | ok sessions =>
    have h2 : storeInv (unlock_old_sessions env st1) := storeInv_unlock_old env st1 h1
    dsimp only
    split
    · exact h2
    · exact h2
    · exact storeInv_allocateSession env _ e site _ h2

theorem storeInv_lockBatchLoop (env : Env) (e : String) (site : Option String) :
    ∀ (l : List Session) (st : Store), storeInv st →
      storeInv (lockBatchLoop env e site st l).1 := by
  intro l
  induction l with
  | nil => intro st h; exact h
  | cons s rest ih =>
    intro st h
    simp only [lockBatchLoop]
    rcases h1 : lockOneSession env e site st s with ⟨st1, r1⟩
    have hi1 : storeInv st1 := by
      have := storeInv_lockOneSession env e site st s h
      rw [h1] at this
      exact this
    cases r1 with
    | error e1 => exact hi1
    | ok p =>
      dsimp only
      rcases h2 : lockBatchLoop env e site st1 rest with ⟨st2, r2⟩
      have hi2 : storeInv st2 := by
        have := ih st1 hi1
        rw [h2] at this
        exact this
      cases r2 <;> (dsimp only; exact hi2)

theorem storeInv_handle_get_sessions (env : Env) (st : Store) (e : String)
    (site : Option String) (k : Nat) (h : storeInv st) :
    storeInv (handle_get_sessions env st e site k).1 := by
  simp only [handle_get_sessions]
  rcases hp : expire_old_sessions env st ((batchRows st k).map (·.2)) with ⟨st1, r⟩
  rw [hp]
  have h1 : storeInv st1 := by
    have := storeInv_expire env ((batchRows st k).map (·.2)) st h
    rw [hp] at this
    exact this
  cases r with
  | error e2 => exact h1
  | ok usable =>
    have h2 : storeInv (unlock_old_sessions env st1) := storeInv_unlock_old env st1 h1
    dsimp only
    split
    · exact h2
    · rename_i d2 chosenSite chosenSessions tail heq
      rcases h3 : lockBatchLoop env e (some chosenSite) (unlock_old_sessions env st1) chosenSessions
        with ⟨st3, r3⟩
      have hi3 : storeInv st3 := by
        have := storeInv_lockBatchLoop env e (some chosenSite) chosenSessions
          (unlock_old_sessions env st1) h2
        rw [h3] at this
        exact this
      cases r3 <;> (dsimp only; exact hi3)

theorem storeInv_handle_unlock_session (env : Env) (st : Store) (e : String) (sid : Nat)
    (h : storeInv st) : storeInv (handle_unlock_session env st e sid).1 := by
  simp only [handle_unlock_session]
  split
  · exact storeInv_unlock_session env st _ h
  · exact h

/-- C1: after every store mutation performed by the lease manager — locking
during single or batch allocation, the explicit unlock transition, TTL
reclaim, freshness reclaim, and every full request handler — each session
with `locked = true` has a non-null `experiment` and a set `unlock_time`,
provided every session satisfied this before the mutation. -/
theorem locked_implies_experiment_invariant
    (env : Env) (st : Store) (e : String) (site : Option String) (sid : Nat)
    (s : Session) (l : List Session) (k : Nat) (h : storeInv st) :
    storeInv (saveSession st (lockFields env e s)) ∧
    storeInv (unlock_session env st s) ∧
    storeInv (unlock_old_sessions env st) ∧
    storeInv (expire_old_sessions env st l).1 ∧
    storeInv (handle_get_session env st e site).1 ∧
    storeInv (handle_get_sessions env st e site k).1 ∧
    storeInv (handle_unlock_session env st e sid).1 :=
  ⟨storeInv_saveSession st _ h (lockedInv_lockFields env e s),
   storeInv_unlock_session env st s h,
   storeInv_unlock_old env st h,
   storeInv_expire env l st h,
   storeInv_handle_get_session env st e site h,
   storeInv_handle_get_sessions env st e site k h,
   storeInv_handle_unlock_session env st e sid h⟩

/-- Witness for C1: the invariant hypothesis holds at the concrete store
`stC4` and is preserved by a single allocation there. -/
theorem locked_invariant_witness :
    storeInv (handle_get_session envC stC4 "expA" none).1 :=
  (locked_implies_experiment_invariant envC stC4 "expA" none 1 S1 [S1] 2
    (by unfold storeInv lockedInv; decide)).2.2.2.2.1

/-- C2: the unlock transition sets `locked := false`, `verified := false`,
`verify_type := "no"`, the status row named `expired`, clears `experiment`,
stamps `unlock_time`, and appends exactly one new ValidateTask for that
session — never zero and never more than one. -/
theorem unlock_transition_spec (env : Env) (st : Store) (s : Session)
    (hname : st.expiredStatus.name = "expired") :
    (∀ t ∈ (unlock_session env st s).sessions, t.id = s.id →
      t.locked = false ∧ t.verified = false ∧ t.verify_type = "no" ∧
      t.session_status.name = "expired" ∧ t.experiment = none ∧
      t.unlock_time = some env.now) ∧
    (unlock_session env st s).validateTasks = st.validateTasks ++ [⟨s.id, "auto"⟩] ∧
    (unlock_session env st s).validateTasks.length = st.validateTasks.length + 1 := by
  refine ⟨?_, rfl, by simp [unlock_session, saveSession]⟩
  intro t ht hid
  have ht2 : t ∈ (saveSession st (unlockFields env st s)).sessions := ht
  simp only [saveSession] at ht2
  rcases List.mem_map.mp ht2 with ⟨u, hu, hut⟩
  by_cases hcase : u.id = (unlockFields env st s).id
  · rw [if_pos hcase] at hut
    subst hut
    exact ⟨rfl, rfl, rfl, hname, rfl, rfl⟩
  · rw [if_neg hcase] at hut
    subst hut
    exact absurd hid hcase

/-- Witness for C2 at the concrete store `stC8` (its expired-status row is
named `expired`) and its locked session `SL`. -/
theorem unlock_transition_witness :
    (unlock_session envC stC8 SL).validateTasks = [⟨SL.id, "auto"⟩] :=
  ((unlock_transition_spec envC stC8 SL (by decide)).2.1).trans (by decide)

/-- C10: the unlock transition overwrites `unlock_time` with the current
time (it never clears it to null) and changes no session fields other than
`locked`, `verified`, `verify_type`, `verified_browsers`, `session_status`,
`unlock_time` and `experiment`; other rows of the store are untouched apart
from the appended task. -/
theorem unlock_frame_effects (env : Env) (st : Store) (s : Session) :
    (unlockFields env st s).unlock_time = some env.now ∧
    (unlockFields env st s).unlock_time ≠ none ∧
    (unlockFields env st s).id = s.id ∧
    (unlockFields env st s).name = s.name ∧
    (unlockFields env st s).update_time = s.update_time ∧
    (unlockFields env st s).account = s.account ∧
    (unlock_session env st s).accounts = st.accounts ∧
    (unlock_session env st s).experimentWebsites = st.experimentWebsites ∧
    (unlock_session env st s).expiredStatus = st.expiredStatus ∧
    (∀ t ∈ st.sessions, t.id ≠ s.id → t ∈ (unlock_session env st s).sessions) := by
  refine ⟨rfl, by simp [unlockFields], rfl, rfl, rfl, rfl, rfl, rfl, rfl, ?_⟩
  intro t ht hne
  have : t ∈ (saveSession st (unlockFields env st s)).sessions := by
    simp only [saveSession]
    refine List.mem_map.mpr ⟨t, ht, ?_⟩
    simp [unlockFields, hne]
  exact this

/-- Witness for C10: the frame conjunct applied at a concrete session whose
id differs from the unlocked one. -/
theorem unlock_frame_witness :
    S2stale ∈ (unlock_session envC stC6 Sbad).sessions :=
  (unlock_frame_effects envC stC6 Sbad).2.2.2.2.2.2.2.2.2 S2stale (by decide) (by decide)

/-- C8: an unlock request succeeds exactly when a session with the id
exists and is held by the tenant, returns the not-found error otherwise,
and a repeated unlock of the same id returns the error without changing
the store. -/
theorem unlock_request_spec (env : Env) (st : Store) (ex : String) (sid : Nat) :
    ((∀ t ∈ st.sessions, ¬(t.id = sid ∧ t.experiment = some ex)) →
      handle_unlock_session env st ex sid =
        (st, .ok (.error "Session does not exist or does not belong to the experiment!"))) ∧
    (∀ s, st.sessions.find? (fun t => t.id = sid && t.experiment = some ex) = some s →
      handle_unlock_session env st ex sid = (unlock_session env st s, .ok .okEmpty) ∧
      handle_unlock_session env (unlock_session env st s) ex sid =
        (unlock_session env st s,
         .ok (.error "Session does not exist or does not belong to the experiment!"))) := by
  constructor
  · intro hno
    have hnone : st.sessions.find? (fun t => t.id = sid && t.experiment = some ex) = none := by
      rw [List.find?_eq_none]
      intro x hx
      simp only [Bool.and_eq_true, decide_eq_true_eq]
      exact fun hc => hno x hx hc
    simp [handle_unlock_session, hnone]
  · intro s hfind
    have hp := List.find?_some hfind
    simp only [Bool.and_eq_true, decide_eq_true_eq] at hp
    obtain ⟨hid, hexp⟩ := hp
    constructor
    · simp [handle_unlock_session, hfind]
    · have hnone2 : (unlock_session env st s).sessions.find?
          (fun t => t.id = sid && t.experiment = some ex) = none := by
        rw [List.find?_eq_none]
        intro x hx
        have hx2 : x ∈ (saveSession st (unlockFields env st s)).sessions := hx
        simp only [saveSession] at hx2
        rcases List.mem_map.mp hx2 with ⟨u, hu, hux⟩
        by_cases hcase : u.id = (unlockFields env st s).id
        · rw [if_pos hcase] at hux
          subst hux
          simp [unlockFields]
        · rw [if_neg hcase] at hux
          subst hux
          simp only [unlockFields] at hcase
          simp only [Bool.and_eq_true, decide_eq_true_eq, not_and]
          intro hxid _
          exact hcase (hxid.trans hid.symm)
      simp [handle_unlock_session, hnone2]

/-- Witness for C8: the concrete double unlock on `stC8`. -/
theorem unlock_request_witness :
    handle_unlock_session envC stC8 "expA" 1 = (unlock_session envC stC8 SL, .ok .okEmpty) ∧
    handle_unlock_session envC (unlock_session envC stC8 SL) "expA" 1 =
      (unlock_session envC stC8 SL,
       .ok (.error "Session does not exist or does not belong to the experiment!")) :=
  (unlock_request_spec envC stC8 "expA" 1).2 SL (by decide)

/- Validation-task outbox lemmas used for the reclaim-order claim. -/

theorem tasks_unlock_session (env : Env) (st : Store) (s : Session) :
    (unlock_session env st s).validateTasks = st.validateTasks ++ [⟨s.id, "auto"⟩] := rfl

theorem tasks_foldl_unlock (env : Env) :
    ∀ (l : List Session) (st : Store),
      ∃ t, (l.foldl (fun acc s => unlock_session env acc s) st).validateTasks =
        st.validateTasks ++ t
  | [], st => ⟨[], by simp⟩
  | s :: rest, st => by
    obtain ⟨t, ht⟩ := tasks_foldl_unlock env rest (unlock_session env st s)
    exact ⟨⟨s.id, "auto"⟩ :: t, by
      simp only [List.foldl_cons, ht, tasks_unlock_session, List.append_assoc,
        List.singleton_append]⟩

theorem tasks_unlock_old (env : Env) (st : Store) :
    ∃ t, (unlock_old_sessions env st).validateTasks = st.validateTasks ++ t :=
  tasks_foldl_unlock env _ st

theorem tasks_expire (env : Env) :
    ∀ (l : List Session) (st : Store),
      ∃ t, ((expire_old_sessions env st l).1).validateTasks = st.validateTasks ++ t := by
  intro l
  induction l with
  | nil => intro st; exact ⟨[], by simp [expire_old_sessions]⟩
  | cons s rest ih =>
    intro st
    simp only [expire_old_sessions]
    split
    · split
      · obtain ⟨t, ht⟩ := ih (unlock_session env st s)
        exact ⟨⟨s.id, "auto"⟩ :: t, by
          simp only [ht, tasks_unlock_session, List.append_assoc, List.singleton_append]⟩
      · rcases hp : expire_old_sessions env st rest with ⟨st2, r⟩
        obtain ⟨t, ht⟩ := ih st
        rw [hp] at ht
        exact ⟨t, by cases r <;> exact ht⟩
    · split
      · split
        · obtain ⟨t, ht⟩ := ih (unlock_session env st s)
          exact ⟨⟨s.id, "auto"⟩ :: t, by
            simp only [ht, tasks_unlock_session, List.append_assoc, List.singleton_append]⟩
        · rcases hp : expire_old_sessions env st rest with ⟨st2, r⟩
          obtain ⟨t, ht⟩ := ih st
          rw [hp] at ht
          exact ⟨t, by cases r <;> exact ht⟩
      · exact ⟨[], by simp⟩

theorem tasks_lockOneSession (env : Env) (e : String) (site : Option String)
    (st : Store) (s : Session) :
    (lockOneSession env e site st s).1.validateTasks = st.validateTasks := by
  simp only [lockOneSession]
  repeat' split
  all_goals rfl

theorem tasks_allocateSession (env : Env) (st : Store) (e : String) (site : Option String)
    (s : Session) : (allocateSession env st e site s).1.validateTasks = st.validateTasks := by
  simp only [allocateSession]
  rcases hp : lockOneSession env e site st s with ⟨st1, r⟩
  have h1 := tasks_lockOneSession env e site st s
  rw [hp] at h1
  cases r <;> exact h1

theorem tasks_lockBatchLoop (env : Env) (e : String) (site : Option String) :
    ∀ (l : List Session) (st : Store),
      (lockBatchLoop env e site st l).1.validateTasks = st.validateTasks := by
  intro l
  induction l with
  | nil => intro st; rfl
  | cons s rest ih =>
    intro st
    simp only [lockBatchLoop]
    rcases h1 : lockOneSession env e site st s with ⟨st1, r1⟩
    have hl1 := tasks_lockOneSession env e site st s
    rw [h1] at hl1
    cases r1 with
    | error e1 => exact hl1
    | ok p =>
      dsimp only
      rcases h2 : lockBatchLoop env e site st1 rest with ⟨st2, r2⟩
      have hl2 := ih st1
      rw [h2] at hl2
      cases r2 <;> (dsimp only; exact hl2.trans hl1)

theorem eligibleSessions_eligible (st : Store) :
    ∀ s ∈ eligibleSessions st, sessionEligible s = true := by
  intro s hs
  exact (List.mem_filter.mp hs).2

theorem foldr_rows_eligible (st : Store) :
    ∀ (al : List Account) (p : Website × Session),
      p ∈ al.foldr (fun a acc =>
        ((st.sessions.filter fun s => a.session = some s.id && sessionEligible s).map
          fun s => (a.website, s)) ++ acc) [] →
      sessionEligible p.2 = true := by
  intro al
  induction al with
  | nil => intro p hp; simp at hp
  | cons a rest ih =>
    intro p hp
    simp only [List.foldr_cons, List.mem_append] at hp
    rcases hp with hp | hp
    · rcases List.mem_map.mp hp with ⟨s, hs, hps⟩
      have := (List.mem_filter.mp hs).2
      simp only [Bool.and_eq_true] at this
      rw [← hps]
      exact this.2
    · exact ih p hp

theorem batchRows_eligible (st : Store) (k : Nat) :
    ∀ p ∈ batchRows st k, sessionEligible p.2 = true := by
  intro p hp
  simp only [batchRows] at hp
  exact foldr_rows_eligible st _ p hp

theorem tasks_handle_get_session (env : Env) (st : Store) (e : String)
    (site : Option String) (u1 : List Session)
    (h1 : (expire_old_sessions env st (eligibleSessions st)).2 = .ok u1) :
    (handle_get_session env st e site).1.validateTasks =
      (unlock_old_sessions env (expire_old_sessions env st (eligibleSessions st)).1).validateTasks := by
  simp only [handle_get_session]
  rcases hp : expire_old_sessions env st (eligibleSessions st) with ⟨st1, r⟩
  rw [hp] at h1
  simp only at h1
  subst h1
  dsimp only
  split
  · rfl
  · rfl
  · exact tasks_allocateSession env _ e site _

theorem tasks_handle_get_sessions (env : Env) (st : Store) (e : String)
    (site : Option String) (k : Nat) (u2 : List Session)
    (h2 : (expire_old_sessions env st ((batchRows st k).map (·.2))).2 = .ok u2) :
    (handle_get_sessions env st e site k).1.validateTasks =
      (unlock_old_sessions env
        (expire_old_sessions env st ((batchRows st k).map (·.2))).1).validateTasks := by
  simp only [handle_get_sessions]
  rcases hp : expire_old_sessions env st ((batchRows st k).map (·.2)) with ⟨st1, r⟩
  rw [hp]
  rw [hp] at h2
  simp only at h2
  subst h2
  dsimp only
  split
  · rfl
  · rename_i d2 chosenSite chosenSessions tail heq
    rcases h3 : lockBatchLoop env e (some chosenSite) (unlock_old_sessions env st1) chosenSessions
      with ⟨st3, r3⟩
    have hl3 := tasks_lockBatchLoop env e (some chosenSite) chosenSessions
      (unlock_old_sessions env st1)
    rw [h3] at hl3
    cases r3 <;> (dsimp only; exact hl3)

/-- C5 (amended): on every allocation request the freshness reclaim runs
first, inspecting exactly the sessions that passed the eligibility filter,
and the TTL reclaim runs second and unconditionally; allocation itself
creates no validation tasks, so (when the freshness sweep raises no
exception) the request's final task outbox is the freshness sweep's output
extended by the TTL sweep's, in that order. -/
theorem reclaim_order_amended (env : Env) (st : Store) (e : String) (site : Option String)
    (k : Nat) (u1 u2 : List Session)
    (h1 : (expire_old_sessions env st (eligibleSessions st)).2 = .ok u1)
    (h2 : (expire_old_sessions env st ((batchRows st k).map (·.2))).2 = .ok u2) :
    (∀ s ∈ eligibleSessions st, sessionEligible s = true) ∧
    (∀ p ∈ batchRows st k, sessionEligible p.2 = true) ∧
    (handle_get_session env st e site).1.validateTasks =
      (unlock_old_sessions env
        (expire_old_sessions env st (eligibleSessions st)).1).validateTasks ∧
    (handle_get_sessions env st e site k).1.validateTasks =
      (unlock_old_sessions env
        (expire_old_sessions env st ((batchRows st k).map (·.2))).1).validateTasks ∧
    (∃ t, ((expire_old_sessions env st (eligibleSessions st)).1).validateTasks =
      st.validateTasks ++ t) ∧
    (∃ t, (unlock_old_sessions env
        (expire_old_sessions env st (eligibleSessions st)).1).validateTasks =
      ((expire_old_sessions env st (eligibleSessions st)).1).validateTasks ++ t) :=
  ⟨eligibleSessions_eligible st,
   batchRows_eligible st k,
   tasks_handle_get_session env st e site u1 h1,
   tasks_handle_get_sessions env st e site k u2 h2,
   tasks_expire env (eligibleSessions st) st,
   tasks_unlock_old env _⟩

/-- Witness for C5 at the concrete store `stC5`. -/
theorem reclaim_order_witness :
    (handle_get_session envC stC5 "expA" none).1.validateTasks =
      (unlock_old_sessions envC
        (expire_old_sessions envC stC5 (eligibleSessions stC5)).1).validateTasks :=
  (reclaim_order_amended envC stC5 "expA" none 2 [] []
    (by rfl) (by rfl)).2.2.1

/-- C9: every decoded request yields exactly one reply: an unrecognized
type produces the error reply naming the illegal type with the store
untouched, an exception raised during dispatch is converted to the generic
error reply at the protocol boundary, and a handler reply passes through
unchanged, so no error escapes a request without a reply. -/
theorem protocol_single_reply (env : Env) (st : Store) (req : Request) :
    (req.type ∉ (["get_session", "get_specific_session", "get_sessions",
        "get_specific_sessions", "unlock_session"] : List String) →
      processRequest env st req = (st, .error ("illegal request type " ++ req.type))) ∧
    (∀ st2 e2, dispatch env st req = (st2, .error e2) →
      processRequest env st req = (st2, .error ("invalid request " ++ e2))) ∧
    (∀ st2 r, dispatch env st req = (st2, .ok r) →
      processRequest env st req = (st2, r)) := by
  refine ⟨?_, ?_, ?_⟩
  · intro hno
    have h1 : ¬req.type = "get_session" := fun h => hno (by simp [h])
    have h2 : ¬req.type = "get_specific_session" := fun h => hno (by simp [h])
    have h3 : ¬req.type = "get_sessions" := fun h => hno (by simp [h])
    have h4 : ¬req.type = "get_specific_sessions" := fun h => hno (by simp [h])
    have h5 : ¬req.type = "unlock_session" := fun h => hno (by simp [h])
    simp [processRequest, dispatch, h1, h2, h3, h4, h5]
  · intro st2 e2 hd
    simp [processRequest, hd]
  · intro st2 r hd
    simp [processRequest, hd]

/-- Witness for C9 at a concrete unrecognized request type. -/
theorem protocol_single_reply_witness :
    processRequest envC stC8 ⟨"bogus", none, none, none, none⟩ =
      (stC8, .error ("illegal request type " ++ "bogus")) :=
  (protocol_single_reply envC stC8 ⟨"bogus", none, none, none, none⟩).1 (by decide)

/- Freshness-sweep abort lemma for C6. -/

theorem expire_error_at (env : Env) (s : Session) (post : List Session)
    (h1 : ¬s.verify_type = "auto") (h2 : ¬s.verify_type = "manual") :
    ∀ (pre : List Session) (st : Store),
      (∀ t ∈ pre, t.verify_type = "auto" ∨ t.verify_type = "manual") →
      expire_old_sessions env st (pre ++ s :: post) =
        ((expire_old_sessions env st pre).1,
         .error ("verify_type=" ++ s.verify_type ++
           " is invalid in expiration of old sessions")) := by
  intro pre
  induction pre with
  | nil =>
    intro st _
    simp [expire_old_sessions, h1, h2]
  | cons t pre ih =>
    intro st hpre
    have ht := hpre t (List.mem_cons_self t pre)
    have hrest : ∀ x ∈ pre, x.verify_type = "auto" ∨ x.verify_type = "manual" :=
      fun x hx => hpre x (List.mem_cons_of_mem t hx)
    simp only [List.cons_append, expire_old_sessions, List.append_eq]
    rcases ht with ht | ht
    · rw [if_pos ht, if_pos ht]
      by_cases hst : env.now - t.update_time > hoursDelta env.auto_limit
      · rw [if_pos hst, if_pos hst]
        exact ih (unlock_session env st t) hrest
      · rw [if_neg hst, if_neg hst, ih st hrest]
        rcases hq : expire_old_sessions env st pre with ⟨st2, r2⟩
        cases r2 <;> rfl
    · have htna : ¬t.verify_type = "auto" := by rw [ht]; decide
      rw [if_neg htna, if_neg htna, if_pos ht, if_pos ht]
      by_cases hst : env.now - t.update_time > hoursDelta env.manual_limit
      · rw [if_pos hst, if_pos hst]
        exact ih (unlock_session env st t) hrest
      · rw [if_neg hst, if_neg hst, ih st hrest]
        rcases hq : expire_old_sessions env st pre with ⟨st2, r2⟩
        cases r2 <;> rfl

/-- C6 (amended): a candidate session whose `verify_type` is neither `auto`
nor `manual` raises an exception that aborts the entire freshness sweep:
the candidates after it are not processed (the store keeps exactly the
mutations made before it) and the whole request fails, answered with the
generic error reply at the protocol boundary; the serial loop itself
continues. -/
theorem invalid_verify_type_aborts_request (env : Env) (st : Store)
    (pre post : List Session) (s : Session) (ex : String)
    (hpre : ∀ t ∈ pre, t.verify_type = "auto" ∨ t.verify_type = "manual")
    (h1 : ¬s.verify_type = "auto") (h2 : ¬s.verify_type = "manual")
    (helig : eligibleSessions st = pre ++ s :: post) :
    (expire_old_sessions env st (pre ++ s :: post)).2 =
      .error ("verify_type=" ++ s.verify_type ++
        " is invalid in expiration of old sessions") ∧
    (expire_old_sessions env st (pre ++ s :: post)).1 =
      (expire_old_sessions env st pre).1 ∧
    processRequest env st ⟨"get_session", some ex, none, none, none⟩ =
      ((expire_old_sessions env st pre).1,
       .error ("invalid request " ++ ("verify_type=" ++ s.verify_type ++
         " is invalid in expiration of old sessions"))) := by
  have hkey := expire_error_at env s post h1 h2 pre st hpre
  refine ⟨by rw [hkey], by rw [hkey], ?_⟩
  have hh : handle_get_session env st ex none =
      ((expire_old_sessions env st pre).1,
       .error ("verify_type=" ++ s.verify_type ++
         " is invalid in expiration of old sessions")) := by
    simp only [handle_get_session, helig, hkey]
  have hd : dispatch env st ⟨"get_session", some ex, none, none, none⟩ =
      ((expire_old_sessions env st pre).1,
       .error ("verify_type=" ++ s.verify_type ++
         " is invalid in expiration of old sessions")) := by
    simp only [dispatch, reduceIte]
    exact hh
  simp [processRequest, hd]

/-- Witness for C6 at the concrete store `stC6`. -/
theorem invalid_verify_type_witness :
    processRequest envC stC6 ⟨"get_session", some "expA", none, none, none⟩ =
      ((expire_old_sessions envC stC6 []).1,
       .error ("invalid request " ++ ("verify_type=" ++ Sbad.verify_type ++
         " is invalid in expiration of old sessions"))) :=
  (invalid_verify_type_aborts_request envC stC6 [] [S2stale] Sbad "expA"
    (by intro t ht; simp at ht) (by decide) (by decide) (by rfl)).2.2

/-- C6 counterexample: at `stC6` the invalid `verify_type` of the first
candidate makes the whole request fail with the generic error reply, and
the second candidate — although overdue — is left completely unprocessed
(the store is unchanged, no validation task is scheduled), contrary to the
claim that only the one session's freshness check is aborted. -/
theorem invalid_verify_type_counterexample :
    (processRequest envC stC6 ⟨"get_session", some "expA", none, none, none⟩).2 =
      .error "invalid request verify_type=x is invalid in expiration of old sessions" ∧
    (processRequest envC stC6 ⟨"get_session", some "expA", none, none, none⟩).1 = stC6 ∧
    envC.now - S2stale.update_time > hoursDelta envC.auto_limit ∧
    S2stale ∈ stC6.sessions ∧ S2stale.verify_type = "auto" := by
  decide

/-- C7 (amended): the store mutations of a request are not wrapped in any
transaction; when the session-data blob is missing, the failure is raised
after the lock and the allocation record were already written, and both
persist in the store the failed request leaves behind. -/
theorem midallocation_error_keeps_lock (env : Env) (st : Store) (ex : String)
    (s : Session) (a : Account)
    (helig : eligibleSessions st = [s])
    (hvt : s.verify_type = "auto")
    (hfresh : ¬env.now - s.update_time > hoursDelta env.auto_limit)
    (httl : st.sessions.filter (ttlExpired env) = [])
    (hacc : s.account = some a)
    (hused : websites_used st ex = [])
    (hblob : env.blobs s.name = none) :
    handle_get_session env st ex none =
      (createEW (saveSession st (lockFields env ex s)) a.website ex s.id,
       .error ("FileNotFoundError: " ++ s.name)) ∧
    (∀ t ∈ (handle_get_session env st ex none).1.sessions,
      t.id = s.id → t.locked = true ∧ t.experiment = some ex) := by
  have hexp : expire_old_sessions env st [s] = (st, .ok [s]) := by
    simp [expire_old_sessions, hvt, hfresh]
  have huo : unlock_old_sessions env st = st := by
    simp [unlock_old_sessions, httl]
  have hfil : filterUnusedSessions (websites_used st ex) [s] = .ok [s] := by
    simp [filterUnusedSessions, hacc, hused]
  have hlock : lockOneSession env ex none st s =
      (createEW (saveSession st (lockFields env ex s)) a.website ex s.id,
       .error ("FileNotFoundError: " ++ s.name)) := by
    simp [lockOneSession, lockFields, hacc, readSessionData, hblob]
  have hmain : handle_get_session env st ex none =
      (createEW (saveSession st (lockFields env ex s)) a.website ex s.id,
       .error ("FileNotFoundError: " ++ s.name)) := by
    simp only [handle_get_session, helig, hexp, huo, hfil, allocateSession, hlock]
  refine ⟨hmain, ?_⟩
  intro t ht hid
  rw [hmain] at ht
  have ht2 : t ∈ (saveSession st (lockFields env ex s)).sessions := ht
  simp only [saveSession] at ht2
  rcases List.mem_map.mp ht2 with ⟨u, hu, hut⟩
  by_cases hcase : u.id = (lockFields env ex s).id
  · rw [if_pos hcase] at hut
    subst hut
    exact ⟨rfl, rfl⟩
  · rw [if_neg hcase] at hut
    subst hut
    simp only [lockFields] at hcase
    exact absurd hid hcase

/-- Witness for C7 at the concrete store `stC7` with the blob store empty. -/
theorem midallocation_witness :
    handle_get_session envNoBlob stC7 "expA" none =
      (createEW (saveSession stC7 (lockFields envNoBlob "expA" S1)) A1.website "expA" S1.id,
       .error ("FileNotFoundError: " ++ S1.name)) :=
  (midallocation_error_keeps_lock envNoBlob stC7 "expA" S1 A1 (by rfl) (by rfl)
    (by decide) (by rfl) (by rfl) (by rfl) (by rfl)).1

/-- C7 counterexample: the failed request leaves the store changed — the
chosen session is locked and assigned and the dedup record written — so the
stored state is not as if the failed request never ran. -/
theorem no_transaction_counterexample :
    (handle_get_session envNoBlob stC7 "expA" none).2 =
      .error "FileNotFoundError: s1" ∧
    (handle_get_session envNoBlob stC7 "expA" none).1 ≠ stC7 ∧
    (∀ t ∈ (handle_get_session envNoBlob stC7 "expA" none).1.sessions, t.locked = true) ∧
    (handle_get_session envNoBlob stC7 "expA" none).1.experimentWebsites =
      [⟨W1, "expA", 1⟩] := by
  decide

/-- C5 counterexample: at `stC5` the code creates the freshness-reclaim
validation task (session 2) before the TTL-reclaim task (session 9); the
order the claim states — TTL reclaim first — would produce the opposite
outbox, so the two orders are observably different and the code uses the
other one. -/
theorem reclaim_order_counterexample :
    (handle_get_session envC stC5 "expA" none).1.validateTasks =
      [⟨2, "auto"⟩, ⟨9, "auto"⟩] ∧
    (claimOrderSweep envC stC5).validateTasks = [⟨9, "auto"⟩, ⟨2, "auto"⟩] ∧
    (handle_get_session envC stC5 "expA" none).1.validateTasks ≠
      (claimOrderSweep envC stC5).validateTasks := by
  decide

/-- C3 failing input: with quorum `k = 2` and a website whose second
session went stale between the quorum query and the reconciliation, the
batch request still succeeds and returns a single session — fewer than
`k` — because the `del` of the under-quorum site is immediately undone by
the reassignment that follows it. -/
theorem batch_below_quorum_returned :
    (handle_get_sessions envC stC3 "expA" (some "a.com") 2).2 =
      .ok (.okSessions "a.com" [⟨lockFields envC "expA" S1, "blob1", none⟩]) ∧
    ([⟨lockFields envC "expA" S1, "blob1", none⟩] : List SessionPayload).length < 2 := by
  decide

/-- C4 failing input: a successful batch allocation without a site pin
creates no ExperimentWebsite record at all (the loop variable `site`
shadows the request parameter, so the `site is None` guard never fires),
contrary to one record per locked session. -/
theorem batch_nonpinned_creates_no_dedup_record :
    (handle_get_sessions envC stC4 "expA" none 2).2 =
      .ok (.okSessions "a.com"
        [⟨lockFields envC "expA" S1, "blob1", none⟩,
         ⟨lockFields envC "expA" S2fresh, "blob2", none⟩]) ∧
    (handle_get_sessions envC stC4 "expA" none 2).1.experimentWebsites = [] := by
  decide

end AccountAPI
